import Mathlib

/-!
Verification of the smolblog repository against its specification.

The repository contains three Go program variants sharing one idea:
- `main.go`: the static-export variant (renders every manifest page to
  `<out>/<page.Path>/index.html`);
- a serving variant whose routes may carry a `static_path` (called `Serving`
  below);
- an earlier serving variant without static paths (called `Serving2` below).

The development shallowly embeds the manifest model, the JSON-to-struct
decoding semantics of `encoding/json` for these struct shapes, the
`path/filepath` path algebra (Unix rules, as the programs run on a Unix
filesystem), and the request/render pipelines.  External collaborators
(the filesystem, the syntactic JSON parser, the template parser, the
template execution engine, and the Markdown converter) are parameters:
every theorem holds for an arbitrary behaviour of those collaborators.
-/

namespace filepath

/-- Splits a character list on the `/` separator, keeping empty components
(the component semantics of splitting a path on its separator). -/
def splitSlash : List Char → List (List Char)
  | [] => [[]]
  | c :: rest =>
    if c = '/' then [] :: splitSlash rest
    else
      match splitSlash rest with
      | [] => [[c]]
      | comp :: comps => (c :: comp) :: comps

/-- The component-stack loop of Go `path/filepath.Clean`: empty and `.`
components are dropped, `..` pops a previous component (or is kept when the
path is relative and nothing is left to pop; or is dropped at the root of a
rooted path), and any other component is pushed.  `acc` holds the output
components in reverse order. -/
def cleanStack (rooted : Bool) : List (List Char) → List (List Char) → List (List Char)
  | acc, [] => acc
  | acc, c :: rest =>
    if c = [] ∨ c = ['.'] then cleanStack rooted acc rest
    else if c = ['.', '.'] then
      match acc with
      | [] =>
        if rooted then cleanStack rooted [] rest
        else cleanStack rooted [['.', '.']] rest
      | t :: acc2 =>
        if t = ['.', '.'] then cleanStack rooted (c :: acc) rest
        else cleanStack rooted acc2 rest
    else cleanStack rooted (c :: acc) rest

/-- Interleaves `/` between path components. -/
def joinComps : List (List Char) → List Char
  | [] => []
  | [c] => c
  | c :: rest => c ++ '/' :: joinComps rest

/-- Go `path/filepath.Clean` on Unix, over a character list: shortest lexical
path equivalent to the input (empty input yields `.`). -/
def CleanL (p : List Char) : List Char :=
  if p = [] then ['.']
  else
    let rooted := p.head? == some '/'
    let comps := (cleanStack rooted [] (splitSlash p)).reverse
    if comps = [] then (if rooted then ['/'] else ['.'])
    else if rooted then '/' :: joinComps comps
    else joinComps comps

/-- Go `path/filepath.Clean` on Unix. -/
def Clean (p : String) : String := ⟨CleanL p.data⟩

/-- Go `path/filepath.IsAbs` on Unix: the path starts with `/`. -/
def IsAbs (p : String) : Bool := p.data.head? == some '/'

/-- Go `filepath.Join` applied to one element: `Clean` of it, unless empty. -/
def Join1 (a : String) : String := if a = "" then "" else Clean a

/-- Go `filepath.Join` applied to two elements: leading empty elements are
skipped, the rest are joined with `/` and cleaned. -/
def Join2 (a b : String) : String :=
  if a = "" then Join1 b else Clean (a ++ "/" ++ b)

/-- Go `filepath.Join` applied to three elements. -/
def Join3 (a b c : String) : String :=
  if a = "" then Join2 b c else Clean (a ++ "/" ++ b ++ "/" ++ c)

/-- Go `path/filepath.Dir` on Unix: everything up to (and including) the last
separator, cleaned; `.` when there is no separator. -/
def Dir (p : String) : String :=
  Clean ⟨(p.data.reverse.dropWhile (fun c => c ≠ '/')).reverse⟩

end filepath

example : filepath.Clean "/man//lib/a.tmpl" = "/man/lib/a.tmpl" := by decide
example : filepath.Clean "" = "." := by decide
example : filepath.Clean "a/b/../../.." = ".." := by decide
example : filepath.Clean "/a/../../b" = "/b" := by decide
example : filepath.Clean "./a/" = "a" := by decide
example : filepath.Join2 "/man" "/lib/a.tmpl" = "/man/lib/a.tmpl" := by decide
example : filepath.Join2 "/man" "a.css" = "/man/a.css" := by decide
example : filepath.Join2 "" "b" = "b" := by decide
example : filepath.Join3 "/out" "blog/p" "index.html" = "/out/blog/p/index.html" := by decide
example : filepath.Dir "/man/m.json" = "/man" := by decide
example : filepath.Dir "m.json" = "." := by decide
example : filepath.IsAbs "/x" = true := by decide
example : filepath.IsAbs "x" = false := by decide

/-- A JSON value, the result of the syntactic JSON parse (the parse itself is
an external collaborator; the struct-mapping semantics of `encoding/json` are
embedded below). -/
inductive Json where
  | null
  | bool (b : Bool)
  | num (n : Int)
  | str (s : String)
  | arr (elems : List Json)
  | obj (fields : List (String × Json))

/-- Inserting into a Go map: overwrite the value when the key is present,
append otherwise (the association list keeps keys unique). -/
def upsert {V : Type} (k : String) (v : V) : List (String × V) → List (String × V)
  | [] => [(k, v)]
  | (k2, v2) :: rest => if k2 = k then (k, v) :: rest else (k2, v2) :: upsert k v rest

/-- Go map lookup over the association-list representation. -/
def lookupKey {V : Type} (k : String) : List (String × V) → Option V
  | [] => none
  | (k2, v) :: rest => if k2 = k then some v else lookupKey k rest

/-- `encoding/json` decoding of a JSON value into a `string` struct field with
current value `cur`: JSON null is a no-op, a JSON string replaces the value,
anything else is a type error. -/
def decStringUpd (cur : String) : Json → Except String String
  | .null => .ok cur
  | .str s => .ok s
  | _ => .error "cannot unmarshal into field of type string"

/-- `encoding/json` decoding of the elements of a JSON array into `[]string`:
each element starts from the zero string. -/
def decStringElems : List Json → Except String (List String)
  | [] => .ok []
  | j :: rest => do
    let s ← decStringUpd "" j
    let ss ← decStringElems rest
    pure (s :: ss)

/-- `encoding/json` decoding into a `[]string` field: null is a no-op, an
array replaces the slice, anything else is a type error. -/
def decStringListUpd (cur : List String) : Json → Except String (List String)
  | .null => .ok cur
  | .arr xs => decStringElems xs
  | _ => .error "cannot unmarshal into field of type []string"

/-- `encoding/json` decoding of a JSON object's entries into a Go map, value
by value with `decV`; a duplicate JSON key overwrites the earlier entry. -/
def decMapEntries {V : Type} (decV : Json → Except String V)
    (cur : List (String × V)) : List (String × Json) → Except String (List (String × V))
  | [] => .ok cur
  | (k, j) :: rest => do
    let v ← decV j
    decMapEntries decV (upsert k v cur) rest

/-- `encoding/json` decoding into a map-typed field: null is a no-op, an
object adds its decoded entries, anything else is a type error. -/
def decMapUpd {V : Type} (decV : Json → Except String V)
    (cur : List (String × V)) : Json → Except String (List (String × V))
  | .null => .ok cur
  | .obj fs => decMapEntries decV cur fs
  | _ => .error "cannot unmarshal into field of type map"

/-- `encoding/json` decoding of a map value of type `any` (`interface\x7b\x7d`):
every JSON value is stored as itself (null is stored as nil). -/
def decAny (j : Json) : Except String Json := .ok j

/-- `encoding/json` decoding of a map value of type `string`: the element
starts from the zero string, so null stores the empty string. -/
def decStringVal : Json → Except String String
  | .null => .ok ""
  | .str s => .ok s
  | _ => .error "cannot unmarshal into map value of type string"

/-- An HTTP request as the handlers observe it: a method and an URL path. -/
structure Request where
  method : String
  path : String

/-- The observable response: status code, explicitly set content type (if
any), and the body bytes written to the response writer. -/
structure Response where
  status : Nat
  contentType : Option String
  body : String
deriving DecidableEq

/-- Go `http.Error`: writes the status, a `text/plain` content type, and the
message followed by a newline. -/
def httpError (msg : String) (code : Nat) : Response :=
  { status := code, contentType := some "text/plain; charset=utf-8", body := msg ++ "\n" }

/-- The outcome of executing a template (an external collaborator) against a
sink: either the full output, or a failure after `written` bytes were already
streamed to the sink. -/
inductive ExecResult where
  | ok (out : String)
  | fail (written : String) (msg : String)

/-- The response produced by streaming `ExecuteTemplate` to the response
writer: a success commits a 200 with the output; a failure leaves whatever
was already written, and the subsequent 500 header only takes effect
when nothing had been written yet (the first write commits a 200). -/
def execResponse : ExecResult → Response
  | .ok out => { status := 200, contentType := none, body := out }
  | .fail written _ =>
    { status := if written = "" then 500 else 200, contentType := none, body := written }

/-- Which branch of the manifest-loading code failed, together with the exact
formatted error string the Go code builds there.  The constructors tag the
spec's error taxonomy: a read error (the file could not be opened or read), a
parse error (the bytes did not decode into the expected shape), or a layout
parse error from the template set builder. -/
inductive LoadErr where
  | readErr (msg : String)
  | parseErr (msg : String)
  | layoutErr (msg : String)

/-- The error text as returned to callers (Go returns plain error values;
the constructor only records which branch produced the text). -/
def LoadErr.text : LoadErr → String
  | .readErr m => m
  | .parseErr m => m
  | .layoutErr m => m

/-- The argument structure passed to template execution by both serving
variants: the request path and the route's arguments. -/
structure routeArgs where
  Path : String
  Args : List (String × Json)

/-- The case-insensitive key fold used by `encoding/json` field matching
(ASCII folding; every JSON tag and field name involved is ASCII). -/
def lowerStr (s : String) : String := ⟨s.data.map Char.toLower⟩

namespace Serving

/-- The `Route` struct of the serving variant with static files: a registered
path runs either a static file or a template with arguments. -/
structure Route where
  StaticPath : String := ""
  ContentType : String := ""
  Template : String := ""
  Args : List (String × Json) := []

/-- The `Manifest` struct of the serving variant: globbed layout templates
and the routes served by the handler. -/
structure Manifest where
  Layouts : List String := []
  Routes : List (String × Route) := []

/-- `encoding/json` field dispatch for `Route`: the JSON tags are
`static_path`, `content_type`, `template` and `args`; key matching falls back
to a case-insensitive comparison, and every other key is ignored. -/
def decRouteFields (cur : Route) : List (String × Json) → Except String Route
  | [] => .ok cur
  | (k, j) :: rest =>
    if lowerStr k = "static_path" then do
      let s ← decStringUpd cur.StaticPath j
      decRouteFields { cur with StaticPath := s } rest
    else if lowerStr k = "content_type" then do
      let s ← decStringUpd cur.ContentType j
      decRouteFields { cur with ContentType := s } rest
    else if lowerStr k = "template" then do
      let s ← decStringUpd cur.Template j
      decRouteFields { cur with Template := s } rest
    else if lowerStr k = "args" then do
      let m ← decMapUpd decAny cur.Args j
      decRouteFields { cur with Args := m } rest
    else decRouteFields cur rest

/-- `encoding/json` decoding of a JSON value into a fresh `Route` (the map
element starts from the zero value; null is a no-op). -/
def decRoute : Json → Except String Route
  | .null => .ok {}
  | .obj fs => decRouteFields {} fs
  | _ => .error "cannot unmarshal into Route"

/-- `encoding/json` field dispatch for `Manifest`: tags `layouts` and
`routes`; unrecognized keys are ignored. -/
def decManifestFields (cur : Manifest) : List (String × Json) → Except String Manifest
  | [] => .ok cur
  | (k, j) :: rest =>
    if lowerStr k = "layouts" then do
      let ls ← decStringListUpd cur.Layouts j
      decManifestFields { cur with Layouts := ls } rest
    else if lowerStr k = "routes" then do
      let rs ← decMapUpd decRoute cur.Routes j
      decManifestFields { cur with Routes := rs } rest
    else decManifestFields cur rest

/-- `json.Unmarshal` of the manifest bytes' JSON value into `Manifest`: null
is a no-op on the zero value, an object is decoded field by field, and any
other top-level value is a type error. -/
def decManifest : Json → Except String Manifest
  | .null => .ok {}
  | .obj fs => decManifestFields {} fs
  | _ => .error "cannot unmarshal into Manifest"

/-- The layout-path resolution performed inside `loadManifest`: every layout
path is unconditionally joined to the manifest directory. -/
def layoutResolve (manifestDir l : String) : String := filepath.Join2 manifestDir l

/-- The path resolution performed by the `renderMarkdown` template function
installed by `templateFuncs`: the source path is unconditionally joined to
the manifest directory. -/
def renderMarkdownResolve (manifestDir src : String) : String := filepath.Join2 manifestDir src

/-- The static-file path resolution performed by `ServeHTTP` for a route with
`StaticPath` set: the path is unconditionally joined to the manifest
directory. -/
def staticResolve (manifestDir sPath : String) : String := filepath.Join2 manifestDir sPath

/-- The `renderMarkdown` template function of `templateFuncs`: resolve the
source against the manifest directory, read it, convert it as Markdown (the
converter is a parameter).  A failure panics in Go, aborting the current
template execution; it is modelled as the error carrying the panic text. -/
def renderMarkdown (fs : String → Except String String)
    (convert : String → Except String String) (manifestDir src : String) :
    Except String String :=
  match fs (renderMarkdownResolve manifestDir src) with
  | .error e => .error ("error opening file to parse markdown: " ++ e)
  | .ok mdByts =>
    match convert mdByts with
    | .error e => .error ("error converting markdown: " ++ e)
    | .ok html => .ok html

/-- The read-and-unmarshal stage of `loadManifest`: read the manifest file,
unmarshal its JSON.  The error strings are the exact `fmt.Errorf` texts of
the source (including the `manfiest` typo). -/
def readManifest (fs : String → Except String String)
    (jsonParse : String → Except String Json) (manifestPath : String) :
    Except LoadErr Manifest :=
  match fs manifestPath with
  | .error e => .error (.readErr ("error reading manfiest: " ++ e))
  | .ok byts =>
    match jsonParse byts with
    | .error e => .error (.parseErr ("error unmarshaling manifest: " ++ e))
    | .ok j =>
      match decManifest j with
      | .error e => .error (.parseErr ("error unmarshaling manifest: " ++ e))
      | .ok man => .ok man

/-- `loadManifest`: read and unmarshal the manifest, resolve every layout
path against the manifest directory, and parse the layout files with the
template parser (an external collaborator receiving the manifest directory
for its function map, the resolved paths, and the filesystem). -/
def loadManifest {T : Type} (fs : String → Except String String)
    (jsonParse : String → Except String Json)
    (tplParse : String → List String → (String → Except String String) → Except String T)
    (manifestPath manifestDir : String) : Except LoadErr (Manifest × T) :=
  match readManifest fs jsonParse manifestPath with
  | .error e => .error e
  | .ok man =>
    match tplParse manifestDir (man.Layouts.map (layoutResolve manifestDir)) fs with
    | .error e => .error (.layoutErr ("error parsing layouts: " ++ e))
    | .ok tpls => .ok (man, tpls)

/-- The `handler` struct: the manifest path and its parent directory. -/
structure handler where
  manifestPath : String
  manifestDir : String

/-- `newHandler`: stores the manifest path and its directory. -/
def newHandler (manPath : String) : handler :=
  { manifestPath := manPath, manifestDir := filepath.Dir manPath }

/-- The part of `ServeHTTP` that runs once the route is found: a route with
`StaticPath` set is served by reading the resolved file and writing its bytes
(with the optional content type); otherwise the route's named template is
executed with `\x7bPath, Args\x7d` streamed to the response writer. -/
def serveRoute {T : Type} (fs : String → Except String String)
    (exec : T → String → routeArgs → ExecResult)
    (manifestDir reqPath : String) (tpls : T) (route : Route) : Response :=
  if route.StaticPath ≠ "" then
    match fs (staticResolve manifestDir route.StaticPath) with
    | .error e => httpError e 500
    | .ok content =>
      { status := 200
        contentType := if route.ContentType ≠ "" then some route.ContentType else none
        body := content }
  else
    execResponse (exec tpls route.Template { Path := reqPath, Args := route.Args })

/-- `ServeHTTP` of the serving variant with static files: reject non-GET with
405, reload the manifest and templates (500 on failure), look the exact
request path up in the routes map (404 on miss), then serve the route. -/
def ServeHTTP {T : Type} (fs : String → Except String String)
    (jsonParse : String → Except String Json)
    (tplParse : String → List String → (String → Except String String) → Except String T)
    (exec : T → String → routeArgs → ExecResult)
    (h : handler) (r : Request) : Response :=
  if r.method ≠ "GET" then httpError "method not allowed" 405
  else
    match loadManifest fs jsonParse tplParse h.manifestPath h.manifestDir with
    | .error e => httpError e.text 500
    | .ok (man, tpls) =>
      match lookupKey r.path man.Routes with
      | none => httpError "route not found" 404
      | some route => serveRoute fs exec h.manifestDir r.path tpls route

/-- One request step of the handler, with the handler state threaded
explicitly: `ServeHTTP` reads but never mutates the handler, so the state
returned to the next request is unchanged. -/
def ServeHTTPStep {T : Type} (fs : String → Except String String)
    (jsonParse : String → Except String Json)
    (tplParse : String → List String → (String → Except String String) → Except String T)
    (exec : T → String → routeArgs → ExecResult)
    (h : handler) (r : Request) : Response × handler :=
  (ServeHTTP fs jsonParse tplParse exec h r, h)

end Serving

namespace Serving2

/-- The `Route` struct of the earlier serving variant: only a template name
and arguments. -/
structure Route where
  Template : String := ""
  Args : List (String × Json) := []

/-- The `Manifest` struct of the earlier serving variant. -/
structure Manifest where
  Layouts : List String := []
  Routes : List (String × Route) := []

/-- `encoding/json` field dispatch for this variant's `Route` (tags
`template` and `args`; unrecognized keys ignored). -/
def decRouteFields (cur : Route) : List (String × Json) → Except String Route
  | [] => .ok cur
  | (k, j) :: rest =>
    if lowerStr k = "template" then do
      let s ← decStringUpd cur.Template j
      decRouteFields { cur with Template := s } rest
    else if lowerStr k = "args" then do
      let m ← decMapUpd decAny cur.Args j
      decRouteFields { cur with Args := m } rest
    else decRouteFields cur rest

/-- `encoding/json` decoding of a JSON value into a fresh `Route`. -/
def decRoute : Json → Except String Route
  | .null => .ok {}
  | .obj fs => decRouteFields {} fs
  | _ => .error "cannot unmarshal into Route"

/-- `encoding/json` field dispatch for this variant's `Manifest` (tags
`layouts` and `routes`; unrecognized keys ignored). -/
def decManifestFields (cur : Manifest) : List (String × Json) → Except String Manifest
  | [] => .ok cur
  | (k, j) :: rest =>
    if lowerStr k = "layouts" then do
      let ls ← decStringListUpd cur.Layouts j
      decManifestFields { cur with Layouts := ls } rest
    else if lowerStr k = "routes" then do
      let rs ← decMapUpd decRoute cur.Routes j
      decManifestFields { cur with Routes := rs } rest
    else decManifestFields cur rest

/-- `json.Unmarshal` of the manifest bytes' JSON value into this variant's
`Manifest`. -/
def decManifest : Json → Except String Manifest
  | .null => .ok {}
  | .obj fs => decManifestFields {} fs
  | _ => .error "cannot unmarshal into Manifest"

/-- The read-and-unmarshal stage of this variant's `loadManifest`; the error
strings are the exact `fmt.Errorf` texts of the source. -/
def readManifest (fs : String → Except String String)
    (jsonParse : String → Except String Json) (manifestPath : String) :
    Except LoadErr Manifest :=
  match fs manifestPath with
  | .error e => .error (.readErr ("error reading manfiest: " ++ e))
  | .ok byts =>
    match jsonParse byts with
    | .error e => .error (.parseErr ("error unmarshaling manifest: " ++ e))
    | .ok j =>
      match decManifest j with
      | .error e => .error (.parseErr ("error unmarshaling manifest: " ++ e))
      | .ok man => .ok man

/-- This variant's `loadManifest`: identical structure, every layout path
unconditionally joined to the manifest directory. -/
def loadManifest {T : Type} (fs : String → Except String String)
    (jsonParse : String → Except String Json)
    (tplParse : String → List String → (String → Except String String) → Except String T)
    (manifestPath manifestDir : String) : Except LoadErr (Manifest × T) :=
  match readManifest fs jsonParse manifestPath with
  | .error e => .error e
  | .ok man =>
    match tplParse manifestDir (man.Layouts.map (filepath.Join2 manifestDir)) fs with
    | .error e => .error (.layoutErr ("error parsing layouts: " ++ e))
    | .ok tpls => .ok (man, tpls)

/-- The `handler` struct of this variant. -/
structure handler where
  manifestPath : String
  manifestDir : String

/-- This variant's `newHandler`. -/
def newHandler (manPath : String) : handler :=
  { manifestPath := manPath, manifestDir := filepath.Dir manPath }

/-- `ServeHTTP` of the earlier serving variant: 405 (bare status, empty body)
for non-GET, reload manifest and templates (500 with the error text on
failure), 404 (bare status) on a route miss, otherwise execute the route's
named template with `\x7bPath, Args\x7d`. -/
def ServeHTTP {T : Type} (fs : String → Except String String)
    (jsonParse : String → Except String Json)
    (tplParse : String → List String → (String → Except String String) → Except String T)
    (exec : T → String → routeArgs → ExecResult)
    (h : handler) (r : Request) : Response :=
  if r.method ≠ "GET" then { status := 405, contentType := none, body := "" }
  else
    match loadManifest fs jsonParse tplParse h.manifestPath h.manifestDir with
    | .error e => httpError e.text 500
    | .ok (man, tpls) =>
      match lookupKey r.path man.Routes with
      | none => { status := 404, contentType := none, body := "" }
      | some route =>
        execResponse (exec tpls route.Template { Path := r.path, Args := route.Args })

end Serving2

namespace StaticExport

/-- The `markdown` struct of the static-export variant: an optional path to a
Markdown source. -/
structure markdown where
  Path : String := ""
deriving DecidableEq

/-- The `page` struct: arguments, a layout name (decoded but unused by the
renderer), the output path under the output directory, and the optional
Markdown reference. -/
structure page where
  Args : List (String × String) := []
  Layout : String := ""
  Path : String := ""
  Markdown : markdown := {}
deriving DecidableEq

/-- The `manifest` struct of the static-export variant. -/
structure manifest where
  Layouts : List String := []
  Pages : List (String × page) := []
  Args : List (String × String) := []

/-- `encoding/json` field dispatch for `markdown` (tag `path`), updating the
current value. -/
def decMarkdownFields (cur : markdown) : List (String × Json) → Except String markdown
  | [] => .ok cur
  | (k, j) :: rest =>
    if lowerStr k = "path" then do
      let s ← decStringUpd cur.Path j
      decMarkdownFields { cur with Path := s } rest
    else decMarkdownFields cur rest

/-- `encoding/json` decoding of a JSON value into a `markdown` struct field
with current value `cur` (null is a no-op). -/
def decMarkdownUpd (cur : markdown) : Json → Except String markdown
  | .null => .ok cur
  | .obj fs => decMarkdownFields cur fs
  | _ => .error "cannot unmarshal into markdown"

/-- `encoding/json` field dispatch for `page`: tags `args`, `layout` and
`markdown`; the `Path` field has no tag, so the JSON key is matched
case-insensitively against the field name.  Unrecognized keys are ignored. -/
def decPageFields (cur : page) : List (String × Json) → Except String page
  | [] => .ok cur
  | (k, j) :: rest =>
    if lowerStr k = "args" then do
      let m ← decMapUpd decStringVal cur.Args j
      decPageFields { cur with Args := m } rest
    else if lowerStr k = "layout" then do
      let s ← decStringUpd cur.Layout j
      decPageFields { cur with Layout := s } rest
    else if lowerStr k = "path" then do
      let s ← decStringUpd cur.Path j
      decPageFields { cur with Path := s } rest
    else if lowerStr k = "markdown" then do
      let m ← decMarkdownUpd cur.Markdown j
      decPageFields { cur with Markdown := m } rest
    else decPageFields cur rest

/-- `encoding/json` decoding of a JSON value into a fresh `page`. -/
def decPage : Json → Except String page
  | .null => .ok {}
  | .obj fs => decPageFields {} fs
  | _ => .error "cannot unmarshal into page"

/-- `encoding/json` field dispatch for `manifest`: tags `layouts`, `pages`
and `args`; unrecognized keys are ignored. -/
def decManifestFields (cur : manifest) : List (String × Json) → Except String manifest
  | [] => .ok cur
  | (k, j) :: rest =>
    if lowerStr k = "layouts" then do
      let ls ← decStringListUpd cur.Layouts j
      decManifestFields { cur with Layouts := ls } rest
    else if lowerStr k = "pages" then do
      let ps ← decMapUpd decPage cur.Pages j
      decManifestFields { cur with Pages := ps } rest
    else if lowerStr k = "args" then do
      let m ← decMapUpd decStringVal cur.Args j
      decManifestFields { cur with Args := m } rest
    else decManifestFields cur rest

/-- `json.Decode` of the manifest JSON value into `manifest`. -/
def decManifest : Json → Except String manifest
  | .null => .ok {}
  | .obj fs => decManifestFields {} fs
  | _ => .error "cannot unmarshal into manifest"

/-- The open-and-decode stage of the static-export `realMain`; both failure
branches use the `error opening manifest` prefix of the source, and the
constructor records which branch failed. -/
def readManifest (fs : String → Except String String)
    (jsonParse : String → Except String Json) (manifestPath : String) :
    Except LoadErr manifest :=
  match fs manifestPath with
  | .error e => .error (.readErr ("error opening manifest: " ++ e))
  | .ok byts =>
    match jsonParse byts with
    | .error e => .error (.parseErr ("error opening manifest: " ++ e))
    | .ok j =>
      match decManifest j with
      | .error e => .error (.parseErr ("error opening manifest: " ++ e))
      | .ok man => .ok man

/-- The per-path resolution of `parseLayouts`: an absolute path is used
verbatim, a relative one is joined to the manifest directory. -/
def layoutResolve (manifestDir p : String) : String :=
  if filepath.IsAbs p then p else filepath.Join2 manifestDir p

/-- `parseLayouts`' resolved path list: each layout path resolved against the
directory of the manifest path. -/
def parseLayoutsPaths (manifestPath : String) (layoutPaths : List String) : List String :=
  layoutPaths.map (layoutResolve (filepath.Dir manifestPath))

/-- `parseLayouts`: resolve the layout paths and hand them to the template
parser (external); a parse failure is wrapped with the source's prefix. -/
def parseLayouts {T : Type}
    (tplParse : List String → (String → Except String String) → Except String T)
    (fs : String → Except String String)
    (manifestPath : String) (layoutPaths : List String) : Except String T :=
  match tplParse (parseLayoutsPaths manifestPath layoutPaths) fs with
  | .error e => .error ("error parsing layouts: " ++ e)
  | .ok t => .ok t

/-- The Markdown path resolution inside `realMain`'s page loop: absolute
paths are used verbatim, relative ones joined to the manifest directory. -/
def markdownResolve (manDir p : String) : String :=
  if filepath.IsAbs p then p else filepath.Join2 manDir p

/-- `template.HTML`: a string marked as pre-escaped HTML, not re-escaped by
the template engine.  Its zero value is the empty string. -/
structure HTML where
  val : String
deriving DecidableEq

/-- The `executionArgs` struct passed to template execution: the optional
rendered Markdown (zero value: empty) and the page's arguments. -/
structure executionArgs where
  RenderedMarkdown : HTML := ⟨""⟩
  Args : List (String × String) := []
deriving DecidableEq

/-- The argument assembly of `realMain`'s page loop: start from the page's
args; when the page has a Markdown reference, read the resolved file, convert
its exact bytes with the Markdown converter (external), and store the result
as pre-escaped HTML.  Error strings are the source's `fmt.Errorf` texts. -/
def buildArgs (fs convert : String → Except String String)
    (manDir name : String) (pg : page) : Except String executionArgs :=
  if pg.Markdown.Path ≠ "" then
    match fs (markdownResolve manDir pg.Markdown.Path) with
    | .error e => .error ("error opening markdown for '" ++ name ++ "': " ++ e)
    | .ok mdByts =>
      match convert mdByts with
      | .error e => .error ("error converting markdown for '" ++ name ++ "': " ++ e)
      | .ok html => .ok { RenderedMarkdown := ⟨html⟩, Args := pg.Args }
  else .ok { RenderedMarkdown := ⟨""⟩, Args := pg.Args }

/-- One successfully rendered page: where it was written, which template was
executed, with which arguments, and the produced bytes. -/
structure RenderEvent where
  outPath : String
  tplName : String
  args : executionArgs
  output : String
deriving DecidableEq

/-- One iteration of `realMain`'s page loop: assemble the arguments, create
`<outDir>/<page.Path>/index.html` (directory creation and file creation are
the external `create`), and execute the template named `post` into it. -/
def processPage {T : Type} (fs convert : String → Except String String)
    (create : String → Except String Unit)
    (exec : T → String → executionArgs → ExecResult) (tpls : T)
    (manDir outDir : String) (entry : String × page) : Except String RenderEvent :=
  match buildArgs fs convert manDir entry.1 entry.2 with
  | .error e => .error e
  | .ok args =>
    match create (filepath.Join3 outDir entry.2.Path "index.html") with
    | .error e => .error ("error creating index.html for page '" ++ entry.1 ++ "': " ++ e)
    | .ok _ =>
      match exec tpls "post" args with
      | .fail _ m => .error ("error executing template for page '" ++ entry.1 ++ "': " ++ m)
      | .ok out =>
        .ok { outPath := filepath.Join3 outDir entry.2.Path "index.html"
              tplName := "post", args := args, output := out }

/-- `realMain`'s page loop: pages are processed one by one, and the first
failure aborts the whole run with that page's error. -/
def processPages {T : Type} (fs convert : String → Except String String)
    (create : String → Except String Unit)
    (exec : T → String → executionArgs → ExecResult) (tpls : T)
    (manDir outDir : String) : List (String × page) → Except String (List RenderEvent)
  | [] => .ok []
  | entry :: rest =>
    match processPage fs convert create exec tpls manDir outDir entry with
    | .error e => .error e
    | .ok ev =>
      match processPages fs convert create exec tpls manDir outDir rest with
      | .error e => .error e
      | .ok evs => .ok (ev :: evs)

/-- The static-export `realMain`: clean the arguments, open and decode the
manifest, parse the layouts (wrapping the already-wrapped parse error once
more, as the source does), then render every page. -/
def realMain {T : Type} (fs : String → Except String String)
    (jsonParse : String → Except String Json)
    (tplParse : List String → (String → Except String String) → Except String T)
    (convert : String → Except String String)
    (create : String → Except String Unit)
    (exec : T → String → executionArgs → ExecResult)
    (manPathArg outDirArg : String) : Except String (List RenderEvent) :=
  let manPath := filepath.Join1 manPathArg
  let outDir := filepath.Join1 outDirArg
  let manDir := filepath.Dir manPath
  match readManifest fs jsonParse manPath with
  | .error e => .error e.text
  | .ok man =>
    match parseLayouts tplParse fs manPath man.Layouts with
    | .error e => .error ("error parsing layouts: " ++ e)
    | .ok tpls => processPages fs convert create exec tpls manDir outDir man.Pages

end StaticExport

/-! Concrete fixtures used by the witness theorems: a tiny filesystem, a
syntactic JSON parse fixed on the fixture manifest bytes, a trivial template
parser, and template executors that record what they were invoked with. -/

/-- The JSON value of the fixture manifest: one static route, one template
route, and one static route whose file is missing. -/
def wManJson : Json := Json.obj [("routes", Json.obj [
  ("/", Json.obj [("static_path", Json.str "a.css"), ("content_type", Json.str "text/css")]),
  ("/t", Json.obj [("template", Json.str "index"), ("args", Json.obj [("title", Json.str "Hi")])]),
  ("/broken", Json.obj [("static_path", Json.str "missing.css")])])]

/-- The fixture filesystem: the manifest bytes and one asset exist. -/
def wFs : String → Except String String := fun p =>
  if p = "/man/m.json" then .ok "{manifest}"
  else if p = "/man/a.css" then .ok "BODY"
  else .error ("open " ++ p ++ ": no such file or directory")

/-- The fixture syntactic JSON parse: succeeds exactly on the fixture
manifest bytes. -/
def wJsonParse : String → Except String Json := fun s =>
  if s = "{manifest}" then .ok wManJson else .error "invalid character"

/-- The fixture template parser: always succeeds with a unit template set. -/
def wTplParse : String → List String → (String → Except String String) → Except String Unit :=
  fun _ _ _ => .ok ()

/-- A fixture template executor recording template name and request path. -/
def wExec : Unit → String → routeArgs → ExecResult :=
  fun _ n a => .ok ("exec:" ++ n ++ ":" ++ a.Path)

/-- A second, observably different fixture template executor. -/
def wExec2 : Unit → String → routeArgs → ExecResult :=
  fun _ n _ => .ok ("other:" ++ n)

/-- The fixture handler for the serving variant with static files. -/
def wHandler : Serving.handler := Serving.newHandler "/man/m.json"

/-- The fixture handler for the earlier serving variant. -/
def wHandler2 : Serving2.handler := Serving2.newHandler "/man/m.json"

/-- The decoded fixture static route. -/
def wRouteStatic : Serving.Route := { StaticPath := "a.css", ContentType := "text/css" }

/-- The decoded fixture template route. -/
def wRouteTpl : Serving.Route := { Template := "index", Args := [("title", Json.str "Hi")] }

/-- The decoded fixture broken static route. -/
def wRouteBroken : Serving.Route := { StaticPath := "missing.css" }

/-- The decoded fixture manifest for the serving variant with static files. -/
def wMan : Serving.Manifest :=
  { Layouts := [], Routes := [("/", wRouteStatic), ("/t", wRouteTpl), ("/broken", wRouteBroken)] }

/-- The decoded fixture manifest for the earlier serving variant (the
`static_path` and `content_type` keys are unrecognized there and ignored). -/
def w2Man : Serving2.Manifest :=
  { Layouts := [],
    Routes := [("/", {}), ("/t", { Template := "index", Args := [("title", Json.str "Hi")] }),
               ("/broken", {})] }

example : Serving.loadManifest wFs wJsonParse wTplParse "/man/m.json" "/man" = .ok (wMan, ()) := rfl
example : Serving2.loadManifest wFs wJsonParse wTplParse "/man/m.json" "/man" = .ok (w2Man, ()) := rfl
example : wHandler.manifestDir = "/man" := rfl
example : wHandler2.manifestPath = "/man/m.json" := rfl

/-- C1 counterexample: the claim says an absolute layout/asset/Markdown path
is used verbatim in both variants; but the serving variant's `loadManifest`
and `renderMarkdown` (and its static-path handling) join every path to the
manifest directory unconditionally, so the absolute layout path
`/lib/a.tmpl` under manifest directory `/man` resolves to
`/man/lib/a.tmpl`, not to itself. -/
theorem c1_path_resolution_counterexample :
    filepath.IsAbs "/lib/a.tmpl" = true ∧
    Serving.layoutResolve "/man" "/lib/a.tmpl" = "/man/lib/a.tmpl" ∧
    Serving.layoutResolve "/man" "/lib/a.tmpl" ≠ "/lib/a.tmpl" ∧
    Serving.renderMarkdownResolve "/man" "/c.md" = "/man/c.md" ∧
    Serving.renderMarkdownResolve "/man" "/c.md" ≠ "/c.md" ∧
    Serving.staticResolve "/man" "/s.css" ≠ "/s.css" := by decide

/-- C1 (amended): in the static-export variant an absolute layout or
Markdown path is used verbatim and a relative one is resolved as
`join(manifestDir, relativePath)`; in the serving variant every layout,
static-asset and `renderMarkdown` path is unconditionally resolved as
`join(manifestDir, path)`, so absolute paths are not used verbatim there.
(The embedding resolves paths from the manifest directory alone, with no
reference to a working directory.) -/
theorem c1_path_resolution_amended (manifestDir p : String) :
    (filepath.IsAbs p = true →
      StaticExport.layoutResolve manifestDir p = p ∧
      StaticExport.markdownResolve manifestDir p = p) ∧
    (filepath.IsAbs p = false →
      StaticExport.layoutResolve manifestDir p = filepath.Join2 manifestDir p ∧
      StaticExport.markdownResolve manifestDir p = filepath.Join2 manifestDir p) ∧
    Serving.layoutResolve manifestDir p = filepath.Join2 manifestDir p ∧
    Serving.renderMarkdownResolve manifestDir p = filepath.Join2 manifestDir p ∧
    Serving.staticResolve manifestDir p = filepath.Join2 manifestDir p := by
  refine ⟨fun h => ?_, fun h => ?_, rfl, rfl, rfl⟩ <;>
    simp [StaticExport.layoutResolve, StaticExport.markdownResolve, h]

/-- C1 witness: the amended statement evaluated at concrete absolute and
relative paths. -/
theorem c1_path_resolution_amended_witness :
    StaticExport.layoutResolve "/man" "/abs.tmpl" = "/abs.tmpl" ∧
    StaticExport.markdownResolve "/man" "rel.md" = filepath.Join2 "/man" "rel.md" ∧
    Serving.layoutResolve "/man" "/abs.tmpl" = filepath.Join2 "/man" "/abs.tmpl" :=
  ⟨((c1_path_resolution_amended "/man" "/abs.tmpl").1 (by decide)).1,
   ((c1_path_resolution_amended "/man" "rel.md").2.1 (by decide)).2,
   (c1_path_resolution_amended "/man" "/abs.tmpl").2.2.1⟩

/-- C7: in both serving variants the method check precedes every other step,
so any non-GET request receives a 405 response for every request path and
every behaviour of the filesystem (hence every state of the manifest file),
JSON parser, template parser and template executor. -/
theorem c7_non_get_405 :
    (∀ (T : Type) (fs : String → Except String String)
       (jsonParse : String → Except String Json)
       (tplParse : String → List String → (String → Except String String) → Except String T)
       (exec : T → String → routeArgs → ExecResult) (h : Serving.handler) (r : Request),
       r.method ≠ "GET" →
       Serving.ServeHTTP fs jsonParse tplParse exec h r = httpError "method not allowed" 405) ∧
    (∀ (T : Type) (fs : String → Except String String)
       (jsonParse : String → Except String Json)
       (tplParse : String → List String → (String → Except String String) → Except String T)
       (exec : T → String → routeArgs → ExecResult) (h : Serving2.handler) (r : Request),
       r.method ≠ "GET" →
       Serving2.ServeHTTP fs jsonParse tplParse exec h r =
         { status := 405, contentType := none, body := "" }) := by
  constructor <;> intro T fs jsonParse tplParse exec h r hm <;>
    simp [Serving.ServeHTTP, Serving2.ServeHTTP, hm]

/-- C7 witness: a POST request is rejected with 405 by both variants even
though the fixture manifest exists and parses, and also when the filesystem
fails every read. -/
theorem c7_non_get_405_witness :
    Serving.ServeHTTP wFs wJsonParse wTplParse wExec wHandler ⟨"POST", "/"⟩ =
      httpError "method not allowed" 405 ∧
    Serving2.ServeHTTP (fun _ => .error "gone") wJsonParse wTplParse wExec wHandler2
        ⟨"DELETE", "/t"⟩ =
      { status := 405, contentType := none, body := "" } :=
  ⟨c7_non_get_405.1 Unit wFs wJsonParse wTplParse wExec wHandler ⟨"POST", "/"⟩ (by decide),
   c7_non_get_405.2 Unit (fun _ => .error "gone") wJsonParse wTplParse wExec wHandler2
     ⟨"DELETE", "/t"⟩ (by decide)⟩

/-- C9: rendering is deterministic.  The handler is the only state carried
across requests and `ServeHTTP` never mutates it, so two sequential renders
of the same request against the same filesystem (same manifest bytes, layout
and asset files) produce the same response; the response is a function only
of the filesystem, the parsers, the executor, the handler's manifest path
and the request. -/
theorem c9_sequential_renders_identical {T : Type}
    (fs : String → Except String String) (jsonParse : String → Except String Json)
    (tplParse : String → List String → (String → Except String String) → Except String T)
    (exec : T → String → routeArgs → ExecResult) (h : Serving.handler) (r : Request) :
    (Serving.ServeHTTPStep fs jsonParse tplParse exec h r).1 =
      (Serving.ServeHTTPStep fs jsonParse tplParse exec
        (Serving.ServeHTTPStep fs jsonParse tplParse exec h r).2 r).1 := rfl

/-- C2: for a route with a non-empty `StaticPath`, serving writes the
referenced file's exact bytes unmodified with status 200, the response is
independent of the template executor (template execution is never invoked),
and the route's `Template` and `Args` fields have no effect on the
response. -/
theorem c2_static_route_exact_bytes {T : Type}
    (fs : String → Except String String) (jsonParse : String → Except String Json)
    (tplParse : String → List String → (String → Except String String) → Except String T)
    (exec exec' : T → String → routeArgs → ExecResult)
    (h : Serving.handler) (r : Request) (man : Serving.Manifest) (tpls : T)
    (route : Serving.Route) (content : String)
    (hget : r.method = "GET")
    (hload : Serving.loadManifest fs jsonParse tplParse h.manifestPath h.manifestDir =
      .ok (man, tpls))
    (hroute : lookupKey r.path man.Routes = some route)
    (hstatic : route.StaticPath ≠ "")
    (hread : fs (Serving.staticResolve h.manifestDir route.StaticPath) = .ok content) :
    (Serving.ServeHTTP fs jsonParse tplParse exec h r).body = content ∧
    (Serving.ServeHTTP fs jsonParse tplParse exec h r).status = 200 ∧
    Serving.ServeHTTP fs jsonParse tplParse exec h r =
      Serving.ServeHTTP fs jsonParse tplParse exec' h r ∧
    (∀ t a, Serving.serveRoute fs exec h.manifestDir r.path tpls
        { route with Template := t, Args := a } =
      Serving.serveRoute fs exec h.manifestDir r.path tpls route) := by
  refine ⟨?_, ?_, ?_, ?_⟩ <;>
    simp [Serving.ServeHTTP, Serving.serveRoute, hget, hload, hroute, hstatic, hread]

/-- C2 witness: the fixture static route returns the asset's exact bytes
with status 200, and the response does not change when the template executor
is replaced by a different one. -/
theorem c2_static_route_exact_bytes_witness :
    (Serving.ServeHTTP wFs wJsonParse wTplParse wExec wHandler ⟨"GET", "/"⟩).body = "BODY" ∧
    (Serving.ServeHTTP wFs wJsonParse wTplParse wExec wHandler ⟨"GET", "/"⟩).status = 200 ∧
    Serving.ServeHTTP wFs wJsonParse wTplParse wExec wHandler ⟨"GET", "/"⟩ =
      Serving.ServeHTTP wFs wJsonParse wTplParse wExec2 wHandler ⟨"GET", "/"⟩ := by
  have X := c2_static_route_exact_bytes wFs wJsonParse wTplParse wExec wExec2 wHandler
    ⟨"GET", "/"⟩ wMan () wRouteStatic "BODY" rfl (by rfl) (by rfl) (by decide) (by rfl)
  exact ⟨X.1, X.2.1, X.2.2.1⟩

/-- C3: in both serving variants, a GET whose path names a route without a
static path executes exactly the template named by the route's `Template`
field with arguments `\x7bPath := request path, Args := route args\x7d`, the
response being the streamed outcome of that execution; a GET whose path is
not a key of the routes map yields 404, and the response is then independent
of the template executor (no template lookup or execution is attempted). -/
theorem c3_template_route_and_404 :
    (∀ (T : Type) (fs : String → Except String String)
       (jsonParse : String → Except String Json)
       (tplParse : String → List String → (String → Except String String) → Except String T)
       (exec : T → String → routeArgs → ExecResult)
       (h : Serving.handler) (r : Request) (man : Serving.Manifest) (tpls : T),
       r.method = "GET" →
       Serving.loadManifest fs jsonParse tplParse h.manifestPath h.manifestDir =
         .ok (man, tpls) →
       (∀ route, lookupKey r.path man.Routes = some route → route.StaticPath = "" →
          Serving.ServeHTTP fs jsonParse tplParse exec h r =
            execResponse (exec tpls route.Template { Path := r.path, Args := route.Args })) ∧
       (lookupKey r.path man.Routes = none →
          Serving.ServeHTTP fs jsonParse tplParse exec h r = httpError "route not found" 404 ∧
          ∀ exec', Serving.ServeHTTP fs jsonParse tplParse exec h r =
            Serving.ServeHTTP fs jsonParse tplParse exec' h r)) ∧
    (∀ (T : Type) (fs : String → Except String String)
       (jsonParse : String → Except String Json)
       (tplParse : String → List String → (String → Except String String) → Except String T)
       (exec : T → String → routeArgs → ExecResult)
       (h : Serving2.handler) (r : Request) (man : Serving2.Manifest) (tpls : T),
       r.method = "GET" →
       Serving2.loadManifest fs jsonParse tplParse h.manifestPath h.manifestDir =
         .ok (man, tpls) →
       (∀ route, lookupKey r.path man.Routes = some route →
          Serving2.ServeHTTP fs jsonParse tplParse exec h r =
            execResponse (exec tpls route.Template { Path := r.path, Args := route.Args })) ∧
       (lookupKey r.path man.Routes = none →
          Serving2.ServeHTTP fs jsonParse tplParse exec h r =
            { status := 404, contentType := none, body := "" } ∧
          ∀ exec', Serving2.ServeHTTP fs jsonParse tplParse exec h r =
            Serving2.ServeHTTP fs jsonParse tplParse exec' h r)) := by
  constructor
  · intro T fs jsonParse tplParse exec h r man tpls hget hload
    constructor
    · intro route hroute hnostatic
      simp [Serving.ServeHTTP, Serving.serveRoute, hget, hload, hroute, hnostatic]
    · intro hmiss
      constructor
      · simp [Serving.ServeHTTP, hget, hload, hmiss]
      · intro exec'
        simp [Serving.ServeHTTP, hget, hload, hmiss]
  · intro T fs jsonParse tplParse exec h r man tpls hget hload
    constructor
    · intro route hroute
      simp [Serving2.ServeHTTP, hget, hload, hroute]
    · intro hmiss
      constructor
      · simp [Serving2.ServeHTTP, hget, hload, hmiss]
      · intro exec'
        simp [Serving2.ServeHTTP, hget, hload, hmiss]

/-- C3 witness: the fixture template route executes `index` with the request
path and the route's args; a GET on an unregistered path yields 404 in both
variants. -/
theorem c3_template_route_and_404_witness :
    Serving.ServeHTTP wFs wJsonParse wTplParse wExec wHandler ⟨"GET", "/t"⟩ =
      execResponse (wExec () "index" { Path := "/t", Args := [("title", Json.str "Hi")] }) ∧
    Serving.ServeHTTP wFs wJsonParse wTplParse wExec wHandler ⟨"GET", "/miss"⟩ =
      httpError "route not found" 404 ∧
    Serving2.ServeHTTP wFs wJsonParse wTplParse wExec wHandler2 ⟨"GET", "/miss"⟩ =
      { status := 404, contentType := none, body := "" } := by
  have X := c3_template_route_and_404.1 Unit wFs wJsonParse wTplParse wExec wHandler
    ⟨"GET", "/t"⟩ wMan () rfl (by rfl)
  have Y := c3_template_route_and_404.1 Unit wFs wJsonParse wTplParse wExec wHandler
    ⟨"GET", "/miss"⟩ wMan () rfl (by rfl)
  have Z := c3_template_route_and_404.2 Unit wFs wJsonParse wTplParse wExec wHandler2
    ⟨"GET", "/miss"⟩ w2Man () rfl (by rfl)
  exact ⟨X.1 wRouteTpl (by rfl) (by rfl), (Y.2 (by rfl)).1, (Z.2 (by rfl)).1⟩

/-- C5: a static route whose file read fails yields a 500 response carrying
the read error's text — never a 404 — even when the failure is that the file
does not exist (the filesystem is arbitrary, so the error covers any read
failure). -/
theorem c5_static_read_failure_500 {T : Type}
    (fs : String → Except String String) (jsonParse : String → Except String Json)
    (tplParse : String → List String → (String → Except String String) → Except String T)
    (exec : T → String → routeArgs → ExecResult)
    (h : Serving.handler) (r : Request) (man : Serving.Manifest) (tpls : T)
    (route : Serving.Route) (e : String)
    (hget : r.method = "GET")
    (hload : Serving.loadManifest fs jsonParse tplParse h.manifestPath h.manifestDir =
      .ok (man, tpls))
    (hroute : lookupKey r.path man.Routes = some route)
    (hstatic : route.StaticPath ≠ "")
    (hread : fs (Serving.staticResolve h.manifestDir route.StaticPath) = .error e) :
    Serving.ServeHTTP fs jsonParse tplParse exec h r = httpError e 500 ∧
    (Serving.ServeHTTP fs jsonParse tplParse exec h r).status = 500 := by
  constructor <;>
    simp [Serving.ServeHTTP, Serving.serveRoute, hget, hload, hroute, hstatic, hread, httpError]

/-- C5 witness: the fixture route `/broken` points at a missing file; the
response is a 500 carrying the not-found read error, not a 404. -/
theorem c5_static_read_failure_500_witness :
    Serving.ServeHTTP wFs wJsonParse wTplParse wExec wHandler ⟨"GET", "/broken"⟩ =
      httpError "open /man/missing.css: no such file or directory" 500 :=
  (c5_static_read_failure_500 wFs wJsonParse wTplParse wExec wHandler ⟨"GET", "/broken"⟩
    wMan () wRouteBroken "open /man/missing.css: no such file or directory"
    rfl (by rfl) (by rfl) (by decide) (by rfl)).1

/-- A fixture page with a Markdown reference. -/
def wPg : StaticExport.page :=
  { Args := [("title", "Hi")], Layout := "ignored", Path := "about",
    Markdown := { Path := "about.md" } }

/-- A fixture page without a Markdown reference. -/
def wPgPlain : StaticExport.page :=
  { Args := [("title", "Plain")], Layout := "post", Path := "plain" }

/-- A fixture page whose Markdown file is missing. -/
def wPgBad : StaticExport.page :=
  { Path := "bad", Markdown := { Path := "missing.md" } }

/-- The fixture filesystem for the static-export variant. -/
def wFsX : String → Except String String := fun p =>
  if p = "/man/about.md" then .ok "# Hi"
  else .error ("open " ++ p ++ ": no such file or directory")

/-- The fixture Markdown converter, tagging its input. -/
def wConvert : String → Except String String := fun s => .ok ("<h1>" ++ s ++ "</h1>")

/-- The fixture output-file creator: always succeeds. -/
def wCreate : String → Except String Unit := fun _ => .ok ()

/-- The fixture template executor of the static-export variant, recording
the template name and the rendered Markdown it received. -/
def wExecX : Unit → String → StaticExport.executionArgs → ExecResult :=
  fun _ n a => .ok ("out:" ++ n ++ ":" ++ a.RenderedMarkdown.val)

/-- C4: a page with a non-empty `markdown.path` gets `RenderedMarkdown`
equal to the Markdown converter's output for the referenced file's exact
bytes, marked as pre-escaped HTML; a page without a Markdown reference
leaves the field at its zero value, the empty string. -/
theorem c4_rendered_markdown_field (fs convert : String → Except String String)
    (manDir name : String) (pg : StaticExport.page) :
    (∀ mdByts html, pg.Markdown.Path ≠ "" →
      fs (StaticExport.markdownResolve manDir pg.Markdown.Path) = .ok mdByts →
      convert mdByts = .ok html →
      StaticExport.buildArgs fs convert manDir name pg =
        .ok { RenderedMarkdown := ⟨html⟩, Args := pg.Args }) ∧
    (pg.Markdown.Path = "" →
      StaticExport.buildArgs fs convert manDir name pg =
        .ok { RenderedMarkdown := ⟨""⟩, Args := pg.Args }) := by
  constructor
  · intro mdByts html hmd hread hconv
    simp [StaticExport.buildArgs, hmd, hread, hconv]
  · intro hmd
    simp [StaticExport.buildArgs, hmd]

/-- C4 witness: the fixture Markdown page gets the converter's output for
the file's exact bytes; the plain page keeps the empty string. -/
theorem c4_rendered_markdown_field_witness :
    StaticExport.buildArgs wFsX wConvert "/man" "home" wPg =
      .ok { RenderedMarkdown := ⟨"<h1># Hi</h1>"⟩, Args := [("title", "Hi")] } ∧
    StaticExport.buildArgs wFsX wConvert "/man" "plain" wPgPlain =
      .ok { RenderedMarkdown := ⟨""⟩, Args := [("title", "Plain")] } :=
  ⟨(c4_rendered_markdown_field wFsX wConvert "/man" "home" wPg).1 "# Hi" "<h1># Hi</h1>"
     (by decide) (by rfl) (by rfl),
   (c4_rendered_markdown_field wFsX wConvert "/man" "plain" wPgPlain).2 (by rfl)⟩

/-- C8: the static-export page loop aborts on the first failing page: after
any prefix of pages that each process successfully, a page whose processing
fails (Markdown read, Markdown conversion, output creation or template
execution) makes the whole run return that page's error, whatever pages
follow — in particular the result is identical for every suffix, so no later
page is rendered. -/
theorem c8_export_aborts_on_failure {T : Type}
    (fs convert : String → Except String String) (create : String → Except String Unit)
    (exec : T → String → StaticExport.executionArgs → ExecResult) (tpls : T)
    (manDir outDir : String) (entry : String × StaticExport.page) (e : String)
    (hfail : StaticExport.processPage fs convert create exec tpls manDir outDir entry =
      .error e) :
    ∀ pre, (∀ x ∈ pre, ∃ ev,
        StaticExport.processPage fs convert create exec tpls manDir outDir x = .ok ev) →
      ∀ rest, StaticExport.processPages fs convert create exec tpls manDir outDir
        (pre ++ entry :: rest) = .error e := by
  intro pre
  induction pre with
  | nil =>
    intro _ rest
    simp [StaticExport.processPages, hfail]
  | cons hd tl ih =>
    intro hpre rest
    obtain ⟨ev, hev⟩ := hpre hd (List.mem_cons_self hd tl)
    have ih' := ih (fun x hx => hpre x (List.mem_cons_of_mem hd hx)) rest
    simp [StaticExport.processPages, hev, ih']

/-- C8 witness: with a failing first page and a would-succeed second page,
the run is the first page's error; the result is unchanged when the suffix
is replaced, so the later page is never rendered. -/
theorem c8_export_aborts_on_failure_witness :
    StaticExport.processPages wFsX wConvert wCreate wExecX () "/man" "/out"
        (("bad", wPgBad) :: [("home", wPg)]) =
      .error "error opening markdown for 'bad': open /man/missing.md: no such file or directory" ∧
    StaticExport.processPages wFsX wConvert wCreate wExecX () "/man" "/out"
        (("bad", wPgBad) :: []) =
      .error "error opening markdown for 'bad': open /man/missing.md: no such file or directory" :=
  ⟨c8_export_aborts_on_failure wFsX wConvert wCreate wExecX () "/man" "/out" ("bad", wPgBad)
     "error opening markdown for 'bad': open /man/missing.md: no such file or directory"
     (by rfl) [] (by simp) [("home", wPg)],
   c8_export_aborts_on_failure wFsX wConvert wCreate wExecX () "/man" "/out" ("bad", wPgBad)
     "error opening markdown for 'bad': open /man/missing.md: no such file or directory"
     (by rfl) [] (by simp) []⟩

/-- C10: the static-export renderer always executes the template named
`post`: the page's `Layout` field does not influence processing at all (two
pages differing only in `Layout` process identically), every successful
render event records template name `post`, and the `layout` JSON key is
nevertheless decoded into the field. -/
theorem c10_always_executes_post {T : Type}
    (fs convert : String → Except String String) (create : String → Except String Unit)
    (exec : T → String → StaticExport.executionArgs → ExecResult) (tpls : T)
    (manDir outDir : String) :
    (∀ name args l1 l2 path md,
      StaticExport.processPage fs convert create exec tpls manDir outDir
          (name, { Args := args, Layout := l1, Path := path, Markdown := md }) =
        StaticExport.processPage fs convert create exec tpls manDir outDir
          (name, { Args := args, Layout := l2, Path := path, Markdown := md })) ∧
    (∀ entry ev,
      StaticExport.processPage fs convert create exec tpls manDir outDir entry = .ok ev →
      ev.tplName = "post") ∧
    StaticExport.decPage (Json.obj [("layout", Json.str "fancy")]) = .ok { Layout := "fancy" } := by
  refine ⟨fun name args l1 l2 path md => rfl, ?_, rfl⟩
  intro entry ev hok
  unfold StaticExport.processPage at hok
  split at hok
  · exact absurd hok (by simp)
  · split at hok
    · exact absurd hok (by simp)
    · split at hok
      · exact absurd hok (by simp)
      · simp only [Except.ok.injEq] at hok
        rw [← hok]

/-- C10 witness: the fixture page renders through template `post` even
though its `Layout` field says `ignored`. -/
theorem c10_always_executes_post_witness :
    ({ outPath := "/out/about/index.html", tplName := "post",
       args := { RenderedMarkdown := ⟨"<h1># Hi</h1>"⟩, Args := [("title", "Hi")] },
       output := "out:post:<h1># Hi</h1>" } : StaticExport.RenderEvent).tplName = "post" :=
  (c10_always_executes_post wFsX wConvert wCreate wExecX () "/man" "/out").2.1
    ("home", wPg)
    { outPath := "/out/about/index.html", tplName := "post",
      args := { RenderedMarkdown := ⟨"<h1># Hi</h1>"⟩, Args := [("title", "Hi")] },
      output := "out:post:<h1># Hi</h1>" }
    (by rfl)

/-- C6: the manifest loaders of both variants fail through the read branch
when the file cannot be read, fail through the parse branch when the bytes
do not decode as JSON of the expected shape (whether the syntactic parse or
the struct mapping rejects them), and succeed otherwise; in a successful
decode an unrecognized JSON key is ignored and an absent structural field is
left at its empty/zero default. -/
theorem c6_manifest_loader_error_taxonomy :
    (∀ (fs : String → Except String String) (jsonParse : String → Except String Json) path e,
      fs path = .error e →
      Serving2.readManifest fs jsonParse path =
        .error (.readErr ("error reading manfiest: " ++ e)) ∧
      StaticExport.readManifest fs jsonParse path =
        .error (.readErr ("error opening manifest: " ++ e))) ∧
    (∀ (fs : String → Except String String) (jsonParse : String → Except String Json) path s e,
      fs path = .ok s → jsonParse s = .error e →
      Serving2.readManifest fs jsonParse path =
        .error (.parseErr ("error unmarshaling manifest: " ++ e)) ∧
      StaticExport.readManifest fs jsonParse path =
        .error (.parseErr ("error opening manifest: " ++ e))) ∧
    (∀ (fs : String → Except String String) (jsonParse : String → Except String Json) path s j,
      fs path = .ok s → jsonParse s = .ok j →
      (∀ e, Serving2.decManifest j = .error e →
        Serving2.readManifest fs jsonParse path =
          .error (.parseErr ("error unmarshaling manifest: " ++ e))) ∧
      (∀ man, Serving2.decManifest j = .ok man →
        Serving2.readManifest fs jsonParse path = .ok man) ∧
      (∀ e, StaticExport.decManifest j = .error e →
        StaticExport.readManifest fs jsonParse path =
          .error (.parseErr ("error opening manifest: " ++ e))) ∧
      (∀ man, StaticExport.decManifest j = .ok man →
        StaticExport.readManifest fs jsonParse path = .ok man)) ∧
    (∀ (cur : Serving2.Manifest) k j rest,
      lowerStr k ≠ "layouts" → lowerStr k ≠ "routes" →
      Serving2.decManifestFields cur ((k, j) :: rest) = Serving2.decManifestFields cur rest) ∧
    (∀ (cur : StaticExport.manifest) k j rest,
      lowerStr k ≠ "layouts" → lowerStr k ≠ "pages" → lowerStr k ≠ "args" →
      StaticExport.decManifestFields cur ((k, j) :: rest) =
        StaticExport.decManifestFields cur rest) ∧
    Serving2.decManifest (Json.obj []) = .ok { Layouts := [], Routes := [] } ∧
    StaticExport.decManifest (Json.obj []) = .ok { Layouts := [], Pages := [], Args := [] } := by
  refine ⟨?_, ?_, ?_, ?_, ?_, rfl, rfl⟩
  · intro fs jsonParse path e hread
    exact ⟨by simp [Serving2.readManifest, hread], by simp [StaticExport.readManifest, hread]⟩
  · intro fs jsonParse path s e hread hparse
    exact ⟨by simp [Serving2.readManifest, hread, hparse],
           by simp [StaticExport.readManifest, hread, hparse]⟩
  · intro fs jsonParse path s j hread hparse
    refine ⟨fun e hdec => ?_, fun man hdec => ?_, fun e hdec => ?_, fun man hdec => ?_⟩ <;>
      simp [Serving2.readManifest, StaticExport.readManifest, hread, hparse, hdec]
  · intro cur k j rest h1 h2
    simp [Serving2.decManifestFields, h1, h2]
  · intro cur k j rest h1 h2 h3
    simp [StaticExport.decManifestFields, h1, h2, h3]

/-- C6 witness: the taxonomy evaluated concretely — a failing read, bytes
the syntactic parse rejects, a JSON value of the wrong shape, and a
successful decode of an object with only unrecognized keys, which yields the
all-default manifest. -/
theorem c6_manifest_loader_error_taxonomy_witness :
    Serving2.readManifest (fun _ => .error "no such file") wJsonParse "/man/m.json" =
      .error (.readErr ("error reading manfiest: " ++ "no such file")) ∧
    StaticExport.readManifest (fun _ => .ok "notjson") (fun _ => .error "invalid character")
        "/man/m.json" =
      .error (.parseErr ("error opening manifest: " ++ "invalid character")) ∧
    Serving2.readManifest (fun _ => .ok "[1]") (fun _ => .ok (Json.arr [Json.num 1]))
        "/man/m.json" =
      .error (.parseErr ("error unmarshaling manifest: " ++ "cannot unmarshal into Manifest")) ∧
    Serving2.readManifest (fun _ => .ok "x")
        (fun _ => .ok (Json.obj [("surprise", Json.num 1)])) "/man/m.json" =
      .ok { Layouts := [], Routes := [] } := by
  refine ⟨?_, ?_, ?_, ?_⟩
  · exact (c6_manifest_loader_error_taxonomy.1 (fun _ => .error "no such file") wJsonParse
      "/man/m.json" "no such file" rfl).1
  · exact (c6_manifest_loader_error_taxonomy.2.1 (fun _ => .ok "notjson")
      (fun _ => .error "invalid character") "/man/m.json" "notjson" "invalid character"
      rfl rfl).2
  · exact (c6_manifest_loader_error_taxonomy.2.2.1 (fun _ => .ok "[1]")
      (fun _ => .ok (Json.arr [Json.num 1])) "/man/m.json" "[1]" (Json.arr [Json.num 1])
      rfl rfl).1 "cannot unmarshal into Manifest" rfl
  · exact ((c6_manifest_loader_error_taxonomy.2.2.1 (fun _ => .ok "x")
      (fun _ => .ok (Json.obj [("surprise", Json.num 1)])) "/man/m.json" "x"
      (Json.obj [("surprise", Json.num 1)]) rfl rfl).2.1 { Layouts := [], Routes := [] } rfl)
